import Mathlib

/-!
# Shallow embedding of the vrp constraint/objective evaluation core

This file embeds the four concrete features of the `vrp-core` construction
module (`preferences.rs`, `requested_time.rs`, `lifo_ordering.rs`,
`ride_duration.rs`) together with the parts of the data model they touch
(dimensions, activities, tours, route/solution contexts, move contexts),
and proves properties of the embedded code.

Modelling conventions:
* `f64` cost/time values are modelled as `ℚ` (the code only adds, subtracts,
  multiplies, divides by constants, takes `max` and compares).
* `HashSet<String>` values are modelled as `List String` used only through
  membership; `JobPreferences::new` deduplicates (as `collect` into a set does).
* `FxHashMap<String, Vec<LifoGroupId>>` is modelled as a total function
  `String → List ℕ` whose default value is the empty stack (matching
  `entry(..).or_default()`); the head of the list is the top of the stack
  (matching `Vec::push`/`last`/`pop` at the back).
* `Arc` pointer identity of a `Multi` parent (`Arc::ptr_eq` in `is_same_job`)
  is modelled by a numeric id on the parent reference.
-/

/-- `Cost` (`f64` in the code), modelled as `ℚ`. -/
abbrev Cost := ℚ

/-- `Timestamp` (`f64` in the code), modelled as `ℚ`. -/
abbrev Timestamp := ℚ

/-- `Duration` (`f64` in the code), modelled as `ℚ`. -/
abbrev Duration := ℚ

/-- `Location` (`usize` in the code). -/
abbrev Location := ℕ

/-- `ViolationCode` is an opaque integer identifying the rejecting feature. -/
abbrev ViolationCode := ℕ

/-- `ConstraintViolation { code, stopped }` returned by hard constraints. -/
structure ConstraintViolation where
  code : ViolationCode
  stopped : Bool
  deriving DecidableEq

/-- `JobPreferences` from `preferences.rs` (lines 39-48): three optional
attribute sets.  Note: the struct in `src` has no `weight` field. -/
structure JobPreferences where
  preferred : Option (List String)
  acceptable : Option (List String)
  avoid : Option (List String)
  deriving DecidableEq

/-- `JobPreferences::new` (`preferences.rs` lines 52-61): an empty vector is
stored as `None`; a non-empty vector is collected into a set (here: `dedup`). -/
def JobPreferences.new (preferred acceptable avoid : Option (List String)) : JobPreferences :=
  let map : Option (List String) → Option (List String) :=
    fun attrs => attrs.bind (fun v => if v.isEmpty then none else some v.dedup)
  ⟨map preferred, map acceptable, map avoid⟩

/-- `JobPreferences::has_preferred_match` (`preferences.rs` lines 64-69). -/
def JobPreferences.has_preferred_match (p : JobPreferences)
    (vehicleAttrs : Option (List String)) : Bool :=
  match p.preferred, vehicleAttrs with
  | some preferred, some attrs => preferred.any (fun attr => attrs.contains attr)
  | _, _ => false

/-- `JobPreferences::has_acceptable_match` (`preferences.rs` lines 72-77). -/
def JobPreferences.has_acceptable_match (p : JobPreferences)
    (vehicleAttrs : Option (List String)) : Bool :=
  match p.acceptable, vehicleAttrs with
  | some acceptable, some attrs => acceptable.any (fun attr => attrs.contains attr)
  | _, _ => false

/-- `JobPreferences::count_avoided` (`preferences.rs` lines 80-85). -/
def JobPreferences.count_avoided (p : JobPreferences)
    (vehicleAttrs : Option (List String)) : ℕ :=
  match p.avoid, vehicleAttrs with
  | some avoid, some attrs => (avoid.filter (fun attr => attrs.contains attr)).length
  | _, _ => 0

/-- `PreferencePenalty` (`preferences.rs` lines 98-107). -/
structure PreferencePenalty where
  no_preferred_match : Cost
  no_acceptable_match : Cost
  per_avoided_present : Cost

/-- `PreferencePenalty::default` (`preferences.rs` lines 109-117). -/
def PreferencePenalty.default : PreferencePenalty :=
  { no_preferred_match := 100, no_acceptable_match := 30, per_avoided_present := 75 }

/-- The per-entity typed attribute store (`Dimensions`), restricted to the
keys read by the four embedded features. -/
structure Dimens where
  lifoTag : Option String := none
  lifoGroup : Option ℕ := none
  demand : Option (Int × Int) := none
  maxRideDuration : Option Duration := none
  jobPreferences : Option JobPreferences := none
  requestedTimes : Option (List (ℕ × Timestamp)) := none

/-- A reference to a `Multi` parent job (`Multi::roots`): pointer identity is
modelled by `id`, and the parent's dimensions carry the shared attributes. -/
structure MultiRef where
  id : ℕ
  dimens : Dimens

/-- A `Single` job: its own dimensions plus the optional back-reference to the
owning `Multi` parent. -/
structure Single where
  dimens : Dimens
  parentMulti : Option MultiRef := none

/-- A `Job` as seen by `merge` and by the preferences objective: a dimensions
holder (`job.dimens()` in the code). -/
structure Job where
  dimens : Dimens

/-- `Place` of an activity: chosen place index, location, service duration and
time window start (only `time.start` is read by the embedded features). -/
structure Place where
  idx : ℕ := 0
  location : Location
  duration : Duration := 0
  timeStart : Timestamp := 0

/-- `Schedule { arrival, departure }` of an activity. -/
structure Schedule where
  arrival : Timestamp
  departure : Timestamp

/-- `Activity`: a scheduled visit; `job` is `None` for structural stops. -/
structure Activity where
  place : Place
  schedule : Schedule
  job : Option Single := none

/-- `RouteContext`: actor dimensions read by the features plus the tour.
`jobs` models `tour.jobs()`, the distinct jobs visited by the tour, which the
preferences feature sums over. -/
structure RouteCtx where
  vehicleLifoTags : Option (List String) := none
  vehicleAttributes : Option (List String) := none
  tour : List Activity := []
  jobs : List Job := []

/-- `SolutionContext`: the routes plus the solution-scoped preference cache
(`PreferencesFitness` custom solution state). -/
structure SolutionCtx where
  routes : List RouteCtx := []
  preferencesFitness : Option Cost := none

/-- `ActivityContext`: insertion leg index, `prev`, `target`, optional `next`. -/
structure ActivityCtx where
  index : ℕ
  prev : Activity
  target : Activity
  next : Option Activity := none

/-- `MoveContext`: route-level (job, no position) or activity-level move. -/
inductive MoveContext where
  | route (solutionCtx : SolutionCtx) (routeCtx : RouteCtx) (job : Job)
  | activity (solutionCtx : SolutionCtx) (routeCtx : RouteCtx) (activityCtx : ActivityCtx)

/-! ## Preferences objective (`preferences.rs`) -/

/-- `calculate_job_penalty` (`preferences.rs` lines 193-221).  Note that the
function in `src` performs no weight multiplication. -/
def calculate_job_penalty (penalty_config : PreferencePenalty) (job : Job)
    (route_ctx : RouteCtx) : Cost :=
  match job.dimens.jobPreferences with
  | none => 0
  | some preferences =>
    let vehicle_attrs := route_ctx.vehicleAttributes
    let has_preferred := preferences.has_preferred_match vehicle_attrs
    let has_acceptable := preferences.has_acceptable_match vehicle_attrs
    let preferred_penalty : Cost :=
      if preferences.preferred.isSome && !has_preferred then
        penalty_config.no_preferred_match +
          (if preferences.acceptable.isSome && !has_acceptable then
            penalty_config.no_acceptable_match
          else 0)
      else 0
    preferred_penalty +
      (preferences.count_avoided vehicle_attrs : Cost) * penalty_config.per_avoided_present

/-- `calculate_route_penalty` (`preferences.rs` lines 224-226). -/
def calculate_route_penalty (penalty_config : PreferencePenalty) (route_ctx : RouteCtx) : Cost :=
  (route_ctx.jobs.map (fun job => calculate_job_penalty penalty_config job route_ctx)).sum

/-- `calculate_solution_fitness` (`preferences.rs` lines 229-231). -/
def calculate_solution_fitness (penalty_config : PreferencePenalty)
    (solution_ctx : SolutionCtx) : Cost :=
  (solution_ctx.routes.map (fun route_ctx => calculate_route_penalty penalty_config route_ctx)).sum

/-- `PreferencesObjective::estimate` (`preferences.rs` lines 157-162). -/
def preferences_estimate (penalty : PreferencePenalty) : MoveContext → Cost
  | .route _ route_ctx job => calculate_job_penalty penalty job route_ctx
  | .activity _ _ _ => 0

/-- `PreferencesObjective::fitness` (`preferences.rs` lines 147-155): prefer
the cached solution-level value. -/
def preferences_fitness (penalty : PreferencePenalty) (solution_ctx : SolutionCtx) : Cost :=
  (solution_ctx.preferencesFitness).getD (calculate_solution_fitness penalty solution_ctx)

/-- `PreferencesState::accept_solution_state` (`preferences.rs` lines 186-190):
recompute the total penalty and store it in the solution state. -/
def accept_solution_state (penalty : PreferencePenalty) (solution_ctx : SolutionCtx) :
    SolutionCtx :=
  { solution_ctx with
      preferencesFitness := some (calculate_solution_fitness penalty solution_ctx) }

/-! ## Requested-time objective (`requested_time.rs`) -/

/-- `RequestedTimePenalty` (`requested_time.rs` lines 22-27): per-second rates. -/
structure RequestedTimePenalty where
  early_penalty_per_second : Cost
  late_penalty_per_second : Cost

/-- `RequestedTimePenalty::new` (`requested_time.rs` lines 41-46): rates are
given per minute and divided by 60. -/
def RequestedTimePenalty.new (early_penalty_per_minute late_penalty_per_minute : Cost) :
    RequestedTimePenalty :=
  { early_penalty_per_second := early_penalty_per_minute / 60,
    late_penalty_per_second := late_penalty_per_minute / 60 }

/-- `RequestedTimePenalty::calculate_penalty` (`requested_time.rs` lines 49-57). -/
def RequestedTimePenalty.calculate_penalty (p : RequestedTimePenalty)
    (arrival requested : Timestamp) : Cost :=
  if arrival < requested then
    (requested - arrival) * p.early_penalty_per_second
  else
    (arrival - requested) * p.late_penalty_per_second

/-- `calculate_activity_penalty_with_arrival` (`requested_time.rs` lines 116-126). -/
def calculate_activity_penalty_with_arrival (p : RequestedTimePenalty)
    (activity : Activity) (arrival : Timestamp) : Option Cost :=
  match activity.job with
  | none => none
  | some single =>
    match single.dimens.requestedTimes with
    | none => none
    | some requested_times =>
      match requested_times.lookup activity.place.idx with
      | none => none
      | some requested_time => some (p.calculate_penalty arrival requested_time)

/-! ## LIFO ordering constraint (`lifo_ordering.rs`) -/

/-- `is_pickup` (`lifo_ordering.rs` lines 216-218, `ride_duration.rs` lines
256-258): the dynamic pickup demand component is non-empty. -/
def isPickup (single : Single) : Bool :=
  match single.dimens.demand with
  | some d => d.1 ≠ 0
  | none => false

/-- `is_delivery` (`lifo_ordering.rs` lines 222-224, `ride_duration.rs` lines
261-263): the dynamic delivery demand component is non-empty. -/
def isDelivery (single : Single) : Bool :=
  match single.dimens.demand with
  | some d => d.2 ≠ 0
  | none => false

/-- The per-tag stack map `FxHashMap<String, Vec<LifoGroupId>>`, as a total
function defaulting to the empty stack; the list head is the stack top. -/
abbrev LifoStacks := String → List ℕ

/-- Pointwise update of one tag's stack. -/
def updateStacks (stackMap : LifoStacks) (tag : String) (stack : List ℕ) : LifoStacks :=
  fun t => if t = tag then stack else stackMap t

/-- `LifoOrderingConstraint::process_activity` (`lifo_ordering.rs` lines
172-212): `none` models `Err(())`. -/
def process_activity (vehicle_lifo_tags : List String) (stackMap : LifoStacks)
    (activity : Activity) : Option LifoStacks :=
  match activity.job with
  | none => some stackMap
  | some single =>
    match single.dimens.lifoTag with
    | none => some stackMap
    | some lifo_tag =>
      if ¬ vehicle_lifo_tags.contains lifo_tag then some stackMap
      else
        match single.dimens.lifoGroup with
        | none => some stackMap
        | some lifo_group_id =>
          let stack := stackMap lifo_tag
          if isPickup single then
            some (updateStacks stackMap lifo_tag (lifo_group_id :: stack))
          else if isDelivery single then
            if stack.head? = some lifo_group_id then
              some (updateStacks stackMap lifo_tag stack.tail)
            else none
          else some stackMap

/-- Processes a sequence of activities in order, stopping at the first
violation (the loops of `check_lifo_violation`). -/
def processSeq (vehicle_lifo_tags : List String) :
    LifoStacks → List Activity → Option LifoStacks
  | stackMap, [] => some stackMap
  | stackMap, activity :: rest =>
    match process_activity vehicle_lifo_tags stackMap activity with
    | none => none
    | some stackMap' => processSeq vehicle_lifo_tags stackMap' rest

/-- The simulated activity sequence of `check_lifo_violation`: the tour up to
the insertion index, then the target, then the remaining tour. -/
def simulatedSeq (tour : List Activity) (index : ℕ) (target : Activity) : List Activity :=
  tour.take index ++ target :: tour.drop index

/-- `LifoOrderingConstraint::check_lifo_violation` (`lifo_ordering.rs` lines
133-167): `true` iff simulating the tour with the target inserted hits a
violation. -/
def check_lifo_violation (vehicle_lifo_tags : List String) (tour : List Activity)
    (index : ℕ) (target : Activity) : Bool :=
  (processSeq vehicle_lifo_tags (fun _ => []) (simulatedSeq tour index target)).isNone

/-- `LifoOrderingConstraint::evaluate` (`lifo_ordering.rs` lines 92-115). -/
def lifo_evaluate (code : ViolationCode) : MoveContext → Option ConstraintViolation
  | .activity _ route_ctx activity_ctx =>
    match route_ctx.vehicleLifoTags with
    | none => none
    | some vehicle_lifo_tags =>
      if vehicle_lifo_tags.isEmpty then none
      else if check_lifo_violation vehicle_lifo_tags route_ctx.tour
          activity_ctx.index activity_ctx.target then
        some { code := code, stopped := false }
      else none
  | .route _ _ _ => none

/-- `LifoOrderingConstraint::merge` (`lifo_ordering.rs` lines 117-125). -/
def lifo_merge (code : ViolationCode) (source : Job) (_candidate : Job) :
    Except ViolationCode Job :=
  if source.dimens.lifoTag.isSome then .error code else .ok source

/-! ## Max ride duration constraint (`ride_duration.rs`) -/

/-- The transport-cost capability `duration(route, from, to, basis)`; the
route argument is dropped and the basis is the concrete departure time the
code passes in `TravelTime::Departure(..)`. -/
abbrev Transport := Location → Location → Timestamp → Duration

/-- `get_max_ride_duration_for_single` (`ride_duration.rs` lines 94-106):
own dimensions first, then the `Multi` parent's. -/
def get_max_ride_duration_for_single (single : Single) : Option Duration :=
  match single.dimens.maxRideDuration with
  | some duration => some duration
  | none => single.parentMulti.bind (fun multi => multi.dimens.maxRideDuration)

/-- `is_same_job` (`ride_duration.rs` lines 266-271): both `Single`s resolve
to the same `Multi` parent (pointer identity modelled by `id`). -/
def is_same_job (single1 single2 : Single) : Bool :=
  match single1.parentMulti, single2.parentMulti with
  | some multi1, some multi2 => multi1.id = multi2.id
  | _, _ => false

/-- `estimate_arrival_time` (`ride_duration.rs` lines 184-200). -/
def estimate_arrival_time (transport : Transport) (prev target : Activity) : Timestamp :=
  prev.schedule.departure +
    transport prev.place.location target.place.location prev.schedule.departure

/-- `estimate_departure_time` (`ride_duration.rs` lines 203-213):
`max(arrival, time_window_start) + service_duration`. -/
def estimate_departure_time (transport : Transport) (prev target : Activity) : Timestamp :=
  max (estimate_arrival_time transport prev target) target.place.timeStart +
    target.place.duration

/-- The forward walk of `estimate_arrival_at_activity_after_insertion`
(`ride_duration.rs` lines 216-253), over the list of tour activities from the
insertion point to the sought activity (inclusive); returns the arrival at the
last list element, or the current departure on an empty list (the fallback
`current_departure` return). -/
def walkArrival (transport : Transport) (current_departure : Timestamp)
    (current_location : Location) : List Activity → Timestamp
  | [] => current_departure
  | activity :: rest =>
    let arrival := current_departure +
      transport current_location activity.place.location current_departure
    match rest with
    | [] => arrival
    | _ :: _ =>
      walkArrival transport (max arrival activity.place.timeStart + activity.place.duration)
        activity.place.location rest

/-- The predicate of the pickup-insertion scan: the activity fulfils the
matching delivery of the inserted pickup. -/
def matchingDelivery (pickup_single : Single) (activity : Activity) : Bool :=
  match activity.job with
  | some delivery_single =>
    is_same_job pickup_single delivery_single && isDelivery delivery_single
  | none => false

/-- The predicate of the delivery-insertion scan: the activity fulfils the
matching pickup of the inserted delivery. -/
def matchingPickup (delivery_single : Single) (activity : Activity) : Bool :=
  match activity.job with
  | some pickup_single =>
    is_same_job delivery_single pickup_single && isPickup pickup_single
  | none => false

/-- `check_pickup_insertion` (`ride_duration.rs` lines 109-141): a violation
is raised iff some matching delivery in the tour suffix from the insertion
point has a recomputed arrival more than the bound after the estimated pickup
departure. -/
def check_pickup_insertion (transport : Transport) (code : ViolationCode)
    (bound : Duration) (tour : List Activity) (index : ℕ) (prev target : Activity)
    (pickup_single : Single) : Option ConstraintViolation :=
  let pickup_departure := estimate_departure_time transport prev target
  let suffix := tour.drop index
  if (List.range suffix.length).any (fun j =>
      match suffix.get? j with
      | some activity =>
        matchingDelivery pickup_single activity &&
          decide (bound <
            walkArrival transport pickup_departure target.place.location (suffix.take (j + 1)) -
              pickup_departure)
      | none => false) then
    some { code := code, stopped := false }
  else none

/-- `check_delivery_insertion` (`ride_duration.rs` lines 144-181): scan the
tour positions `0..=index` for the first matching pickup; compare the
estimated delivery arrival against its fixed departure. -/
def check_delivery_insertion (transport : Transport) (code : ViolationCode)
    (bound : Duration) (tour : List Activity) (index : ℕ) (prev target : Activity)
    (delivery_single : Single) : Option ConstraintViolation :=
  match (tour.take (index + 1)).find? (matchingPickup delivery_single) with
  | none => none
  | some pickup_activity =>
    let pickup_departure := pickup_activity.schedule.departure
    let delivery_arrival := estimate_arrival_time transport prev target
    if bound < delivery_arrival - pickup_departure then
      some { code := code, stopped := false }
    else none

/-- `MaxRideDurationConstraint::check_ride_duration` (`ride_duration.rs`
lines 68-91). -/
def check_ride_duration (transport : Transport) (code : ViolationCode)
    (route_ctx : RouteCtx) (activity_ctx : ActivityCtx) : Option ConstraintViolation :=
  match activity_ctx.target.job with
  | none => none
  | some single =>
    match get_max_ride_duration_for_single single with
    | none => none
    | some max_ride_duration =>
      if isPickup single then
        check_pickup_insertion transport code max_ride_duration route_ctx.tour
          activity_ctx.index activity_ctx.prev activity_ctx.target single
      else if isDelivery single then
        check_delivery_insertion transport code max_ride_duration route_ctx.tour
          activity_ctx.index activity_ctx.prev activity_ctx.target single
      else none

/-- `MaxRideDurationConstraint::evaluate` (`ride_duration.rs` lines 47-54). -/
def ride_evaluate (transport : Transport) (code : ViolationCode) :
    MoveContext → Option ConstraintViolation
  | .activity _ route_ctx activity_ctx => check_ride_duration transport code route_ctx activity_ctx
  | .route _ _ _ => none

/-- `MaxRideDurationConstraint::merge` (`ride_duration.rs` lines 56-63). -/
def ride_merge (code : ViolationCode) (source : Job) (_candidate : Job) :
    Except ViolationCode Job :=
  if source.dimens.maxRideDuration.isSome then .error code else .ok source

/-! ## Concrete fixtures (used by witness and counterexample theorems) -/

/-- An empty solution context. -/
def emptySolution : SolutionCtx := {}

/-- A pickup `Single` with a LIFO tag and group (dynamic pickup demand 1). -/
def lifoPickupSingle (tag : String) (g : ℕ) : Single :=
  { dimens := { lifoTag := some tag, lifoGroup := some g, demand := some (1, 0) } }

/-- A delivery `Single` with a LIFO tag and group (dynamic delivery demand 1). -/
def lifoDeliverySingle (tag : String) (g : ℕ) : Single :=
  { dimens := { lifoTag := some tag, lifoGroup := some g, demand := some (0, 1) } }

/-- An activity at a location fulfilling an optional single. -/
def mkActivity (loc : Location) (s : Option Single) : Activity :=
  { place := { location := loc }, schedule := { arrival := 0, departure := 0 }, job := s }

/-- A regular single without any LIFO data. -/
def regularSingle : Single := { dimens := {} }

/-- C3 counterexample: a tour on a vehicle enforcing both tags, where the
enforced pair of tag `w` group 9 is adjacent but the `s`-tagged activities are
out of LIFO order on their own. -/
def counterTour : List Activity :=
  [mkActivity 10 (some (lifoPickupSingle "s" 1)),
   mkActivity 20 (some (lifoPickupSingle "s" 2)),
   mkActivity 30 (some (lifoPickupSingle "w" 9)),
   mkActivity 40 (some (lifoDeliverySingle "w" 9))]

/-- C3 counterexample: the target delivery of `s` group 1 (not top of stack). -/
def counterTarget : Activity := mkActivity 50 (some (lifoDeliverySingle "s" 1))

/-- C3 counterexample: the move context inserting the target at the tail. -/
def counterMove : MoveContext :=
  .activity emptySolution { vehicleLifoTags := some ["w", "s"], tour := counterTour }
    { index := 4, prev := mkActivity 40 (some (lifoDeliverySingle "w" 9)),
      target := counterTarget }

/-- C3 witness: an adjacent enforced pair of tag `w` group 1 already in the
tour, with an untagged activity inserted after it. -/
def pairTour : List Activity :=
  [mkActivity 10 (some (lifoPickupSingle "w" 1)),
   mkActivity 20 (some (lifoDeliverySingle "w" 1))]

/-- C3 witness: the untagged target activity. -/
def pairTarget : Activity := mkActivity 15 (some regularSingle)

/-- C3 witness: the move context inserting the untagged target at the tail. -/
def pairMove : MoveContext :=
  .activity emptySolution { vehicleLifoTags := some ["w"], tour := pairTour }
    { index := 2, prev := mkActivity 20 (some (lifoDeliverySingle "w" 1)),
      target := pairTarget }

/-- C4 witness: two enforced pickups already in the tour. -/
def c4Tour : List Activity :=
  [mkActivity 10 (some (lifoPickupSingle "w" 1)),
   mkActivity 20 (some (lifoPickupSingle "w" 2))]

/-- C4 witness: the out-of-order delivery of group 1 (stack top is group 2). -/
def c4Target : Activity := mkActivity 30 (some (lifoDeliverySingle "w" 1))

/-- C4 witness: the move context inserting the delivery at the tail. -/
def c4Move : MoveContext :=
  .activity emptySolution { vehicleLifoTags := some ["w"], tour := c4Tour }
    { index := 2, prev := mkActivity 20 (some (lifoPickupSingle "w" 2)), target := c4Target }

/-- C4 witness: the stack state after processing the two pickups. -/
def c4Stacks : LifoStacks :=
  updateStacks (updateStacks (fun _ => []) "w" [1]) "w" [2, 1]

/-- C7 witness: a vehicle with an empty enforced-tag set over an out-of-order
LIFO tour. -/
def c7Route : RouteCtx := { vehicleLifoTags := some [], tour := c4Tour }

/-- C5 witness: a source job carrying a LIFO tag (and no ride bound). -/
def taggedJob : Job := ⟨{ lifoTag := some "w" }⟩

/-- C5 witness: a source job carrying a ride-duration bound (and no tag). -/
def boundJob : Job := ⟨{ maxRideDuration := some 440 }⟩

/-- C6 witness: requested times table mapping place index 0 to 2800. -/
def reqTimes : List (ℕ × Timestamp) := [(0, 2800)]

/-- C6 witness: a single with the requested-time table. -/
def reqSingle : Single := { dimens := { requestedTimes := some reqTimes } }

/-- C6 witness: an activity at place index 0 fulfilling `reqSingle`. -/
def reqActivity : Activity := mkActivity 0 (some reqSingle)

/-- C1 failing input: the job of spec §8 with a non-matching preferred set and
one avoided attribute present; the spec gives it weight 3.0, which the
`JobPreferences` struct in `src` cannot even store. -/
def prefJob : Job :=
  ⟨{ jobPreferences :=
      some (JobPreferences.new (some ["driver:alice"]) none (some ["shift:night"])) }⟩

/-- C1 failing input: the route whose vehicle has the avoided attribute and
not the preferred one. -/
def prefRoute : RouteCtx := { vehicleAttributes := some ["driver:bob", "shift:night"] }

/-- The scaled test transport: `duration = |to - from| * scale`. -/
def scaledTransport (scale : ℚ) : Transport :=
  fun a b _ => ((Int.natAbs ((b : ℤ) - (a : ℤ))) : ℚ) * scale

/-- C2 fixtures: the `Multi` parent carrying `maxRideDuration = 440`. -/
def rideMulti : MultiRef := { id := 1, dimens := { maxRideDuration := some 440 } }

/-- C2 fixtures: the pickup child of `rideMulti`. -/
def ridePickupSingle : Single :=
  { dimens := { demand := some (1, 0) }, parentMulti := some rideMulti }

/-- C2 fixtures: the delivery child of `rideMulti`. -/
def rideDeliverySingle : Single :=
  { dimens := { demand := some (0, 1) }, parentMulti := some rideMulti }

/-- C2 fixtures: the pickup activity already committed (departure 100, loc 10). -/
def ridePickupActivity : Activity :=
  { place := { location := 10, duration := 60 }, schedule := { arrival := 40, departure := 100 },
    job := some ridePickupSingle }

/-- C2 fixtures: the delivery activity being inserted (loc 20). -/
def rideDeliveryActivity : Activity :=
  { place := { location := 20, duration := 60 }, schedule := { arrival := 0, departure := 0 },
    job := some rideDeliverySingle }

/-- C2 fixtures: delivery-insertion move after the committed pickup. -/
def rideDeliveryMove : MoveContext :=
  .activity emptySolution { tour := [ridePickupActivity] }
    { index := 0, prev := ridePickupActivity, target := rideDeliveryActivity }

/-- C2 fixtures: the structural depot stop (loc 0, departure 0). -/
def depotActivity : Activity :=
  { place := { location := 0 }, schedule := { arrival := 0, departure := 0 } }

/-- C2 fixtures: pickup-insertion move before the committed delivery. -/
def ridePickupMove : MoveContext :=
  .activity emptySolution { tour := [rideDeliveryActivity] }
    { index := 0, prev := depotActivity, target := ridePickupActivity }

/-! ## Helper lemmas -/

/-- Processing a concatenated sequence chains the stack states and propagates
the first violation. -/
theorem processSeq_append (tags : List String) (st : LifoStacks) (l1 l2 : List Activity) :
    processSeq tags st (l1 ++ l2) =
      (processSeq tags st l1).bind (fun st' => processSeq tags st' l2) := by
  induction l1 generalizing st with
  | nil => rfl
  | cons a l ih =>
    simp only [List.cons_append, processSeq]
    cases process_activity tags st a with
    | none => rfl
    | some st' => exact ih st'

/-- Restoring one tag's stack to its current value is the identity. -/
theorem updateStacks_self (st : LifoStacks) (tag : String) :
    updateStacks st tag (st tag) = st := by
  funext t
  by_cases h : t = tag
  · simp [updateStacks, h]
  · simp [updateStacks, h]

/-! ## Claim theorems -/

/-- C8: both the LIFO and the max-ride-duration constraints return no
violation for every Route-level move context. -/
theorem route_level_moves_never_violate (code : ViolationCode) (transport : Transport)
    (solution_ctx : SolutionCtx) (route_ctx : RouteCtx) (job : Job) :
    lifo_evaluate code (.route solution_ctx route_ctx job) = none ∧
    ride_evaluate transport code (.route solution_ctx route_ctx job) = none :=
  ⟨rfl, rfl⟩

/-- C7: a route whose vehicle has no `VehicleLifoTags` dimension or an empty
enforced-tag set never raises a LIFO violation, for every move context over
that route, regardless of tour content and target. -/
theorem lifo_no_enforced_tags_never_violates (code : ViolationCode) (route_ctx : RouteCtx)
    (h : route_ctx.vehicleLifoTags = none ∨ route_ctx.vehicleLifoTags = some []) :
    (∀ (solution_ctx : SolutionCtx) (activity_ctx : ActivityCtx),
      lifo_evaluate code (.activity solution_ctx route_ctx activity_ctx) = none) ∧
    (∀ (solution_ctx : SolutionCtx) (job : Job),
      lifo_evaluate code (.route solution_ctx route_ctx job) = none) := by
  constructor
  · intro solution_ctx activity_ctx
    rcases h with h | h <;> simp [lifo_evaluate, h]
  · intro solution_ctx job
    rfl

/-- C7 witness: insertion of a delivery out of stack order is accepted on a
vehicle whose enforced-tag set is empty. -/
theorem lifo_no_enforced_tags_never_violates_witness :
    lifo_evaluate 5 (.activity emptySolution c7Route
      { index := 2, prev := mkActivity 20 (some (lifoPickupSingle "w" 2)),
        target := c4Target }) = none :=
  (lifo_no_enforced_tags_never_violates 5 c7Route (Or.inr rfl)).1 emptySolution _

/-- C5: the LIFO merge returns the feature's code exactly when the source job
carries a LIFO tag, the ride-duration merge exactly when the source carries a
ride bound in its own dimensions; otherwise both return the source unchanged,
regardless of the candidate. -/
theorem merge_vetoes_exactly_tagged_sources (code : ViolationCode) (source candidate : Job) :
    (lifo_merge code source candidate = .error code ↔ source.dimens.lifoTag.isSome = true) ∧
    (source.dimens.lifoTag.isSome = false → lifo_merge code source candidate = .ok source) ∧
    (ride_merge code source candidate = .error code ↔
      source.dimens.maxRideDuration.isSome = true) ∧
    (source.dimens.maxRideDuration.isSome = false →
      ride_merge code source candidate = .ok source) := by
  refine ⟨?_, ?_, ?_, ?_⟩
  · by_cases h : source.dimens.lifoTag.isSome <;> simp [lifo_merge, h]
  · intro h; simp [lifo_merge, h]
  · by_cases h : source.dimens.maxRideDuration.isSome <;> simp [ride_merge, h]
  · intro h; simp [ride_merge, h]

/-- C5 witness: a tagged source is vetoed by the LIFO merge but passed through
unchanged by the ride-duration merge, and symmetrically for a bounded source. -/
theorem merge_vetoes_exactly_tagged_sources_witness :
    lifo_merge 7 taggedJob boundJob = .error 7 ∧
    ride_merge 7 taggedJob boundJob = .ok taggedJob ∧
    ride_merge 8 boundJob taggedJob = .error 8 ∧
    lifo_merge 8 boundJob taggedJob = .ok boundJob :=
  ⟨(merge_vetoes_exactly_tagged_sources 7 taggedJob boundJob).1.mpr rfl,
   (merge_vetoes_exactly_tagged_sources 7 taggedJob boundJob).2.2.2 rfl,
   (merge_vetoes_exactly_tagged_sources 8 boundJob taggedJob).2.2.1.mpr rfl,
   (merge_vetoes_exactly_tagged_sources 8 boundJob taggedJob).2.1 rfl⟩

/-- C9: `accept_solution_state` is idempotent, and the cached value equals a
full recompute of the solution penalty (which is also what `fitness` then
reads). -/
theorem accept_solution_state_idempotent (penalty : PreferencePenalty)
    (solution_ctx : SolutionCtx) :
    accept_solution_state penalty (accept_solution_state penalty solution_ctx) =
      accept_solution_state penalty solution_ctx ∧
    (accept_solution_state penalty solution_ctx).preferencesFitness =
      some (calculate_solution_fitness penalty solution_ctx) ∧
    preferences_fitness penalty (accept_solution_state penalty solution_ctx) =
      calculate_solution_fitness penalty solution_ctx :=
  ⟨rfl, rfl, rfl⟩

/-- C10: an empty vector for any preference set is stored as absent, and a job
whose preference record was built with an empty preferred list incurs no
`no_preferred_match` penalty on any vehicle, exactly as if no preferred set
had been given. -/
theorem empty_preference_lists_stored_absent
    (preferred acceptable avoid : Option (List String))
    (penalty_config : PreferencePenalty) (route_ctx : RouteCtx) (d : Dimens) :
    (JobPreferences.new (some []) acceptable avoid).preferred = none ∧
    (JobPreferences.new preferred (some []) avoid).acceptable = none ∧
    (JobPreferences.new preferred acceptable (some [])).avoid = none ∧
    calculate_job_penalty penalty_config
        ⟨{ d with jobPreferences := some (JobPreferences.new (some []) acceptable avoid) }⟩
        route_ctx =
      calculate_job_penalty penalty_config
        ⟨{ d with jobPreferences := some (JobPreferences.new none acceptable avoid) }⟩
        route_ctx ∧
    calculate_job_penalty penalty_config
        ⟨{ d with jobPreferences := some (JobPreferences.new (some []) acceptable avoid) }⟩
        route_ctx =
      ((JobPreferences.new (some []) acceptable avoid).count_avoided
          route_ctx.vehicleAttributes : Cost) * penalty_config.per_avoided_present := by
  refine ⟨rfl, rfl, rfl, rfl, ?_⟩
  show (0 : Cost) + _ = _
  rw [zero_add]

/-- C6: the requested-time penalty is `(r − a) * early_rate` when early,
`(a − r) * late_rate` when late, and `0` on exact match, where the rates are
the per-minute penalties divided by 60. -/
theorem requested_time_penalty_asymmetric (early_per_minute late_per_minute a r : ℚ)
    (activity : Activity) (single : Single) (times : List (ℕ × Timestamp))
    (hjob : activity.job = some single)
    (htimes : single.dimens.requestedTimes = some times)
    (hlookup : times.lookup activity.place.idx = some r) :
    (a < r →
      calculate_activity_penalty_with_arrival
          (RequestedTimePenalty.new early_per_minute late_per_minute) activity a =
        some ((r - a) * (early_per_minute / 60))) ∧
    (r < a →
      calculate_activity_penalty_with_arrival
          (RequestedTimePenalty.new early_per_minute late_per_minute) activity a =
        some ((a - r) * (late_per_minute / 60))) ∧
    (a = r →
      calculate_activity_penalty_with_arrival
          (RequestedTimePenalty.new early_per_minute late_per_minute) activity a =
        some 0) := by
  simp only [calculate_activity_penalty_with_arrival, hjob, htimes, hlookup]
  refine ⟨fun h => ?_, fun h => ?_, fun h => ?_⟩
  · simp [RequestedTimePenalty.calculate_penalty, RequestedTimePenalty.new, h]
  · simp [RequestedTimePenalty.calculate_penalty, RequestedTimePenalty.new, not_lt.mpr h.le]
  · simp [RequestedTimePenalty.calculate_penalty, RequestedTimePenalty.new, h]

/-- C6 witness: early by 1800 seconds at 1.0/min gives 30; late by 1800
seconds at 2.0/min gives 60. -/
theorem requested_time_penalty_asymmetric_witness :
    calculate_activity_penalty_with_arrival (RequestedTimePenalty.new 1 2) reqActivity 1000 =
      some 30 ∧
    calculate_activity_penalty_with_arrival (RequestedTimePenalty.new 1 2) reqActivity 4600 =
      some 60 := by
  constructor
  · rw [(requested_time_penalty_asymmetric 1 2 1000 2800 reqActivity reqSingle reqTimes
      rfl rfl rfl).1 (by norm_num)]
    norm_num
  · rw [(requested_time_penalty_asymmetric 1 2 4600 2800 reqActivity reqSingle reqTimes
      rfl rfl rfl).2.1 (by norm_num)]
    norm_num

/-- C1: evaluating the code at the spec's weighted example.  The spec requires
the combined penalty sum to be multiplied by the job's weight (3.0 here, for a
total of `(100 + 75) * 3 = 525`), but `calculate_job_penalty` in `src`
performs no weight multiplication and `JobPreferences` has no weight field at
all, so the Route-level estimate is `100 + 75 = 175`. -/
theorem preferences_weight_missing_code_bug :
    preferences_estimate PreferencePenalty.default (.route emptySolution prefRoute prefJob) =
      175 ∧
    (175 : Cost) ≠ (100 + 75) * 3 := by
  constructor
  · show calculate_job_penalty PreferencePenalty.default prefJob prefRoute = 175
    simp [calculate_job_penalty, prefJob, prefRoute, JobPreferences.new,
      JobPreferences.has_preferred_match, JobPreferences.has_acceptable_match,
      JobPreferences.count_avoided, PreferencePenalty.default]
    norm_num
  · norm_num

/-- Overwriting an updated tag's stack again is one overwrite. -/
theorem updateStacks_updateStacks (st : LifoStacks) (tag : String) (s1 s2 : List ℕ) :
    updateStacks (updateStacks st tag s1) tag s2 = updateStacks st tag s2 := by
  funext t
  by_cases h : t = tag <;> simp [updateStacks, h]

/-- C4: on a vehicle with enforced LIFO tags, a delivery whose group does not
equal the top of its tag's stack (built from the preceding simulated
activities) makes `evaluate` return a violation carrying the feature's code
and `stopped = false`. -/
theorem lifo_out_of_order_delivery_violates
    (code : ViolationCode) (solution_ctx : SolutionCtx) (route_ctx : RouteCtx)
    (activity_ctx : ActivityCtx) (tags : List String)
    (pre post : List Activity) (d : Activity) (single : Single) (tag : String) (g : ℕ)
    (st : LifoStacks)
    (htags : route_ctx.vehicleLifoTags = some tags)
    (hsim : simulatedSeq route_ctx.tour activity_ctx.index activity_ctx.target =
      pre ++ d :: post)
    (hpre : processSeq tags (fun _ => []) pre = some st)
    (hjob : d.job = some single)
    (htag : single.dimens.lifoTag = some tag)
    (henf : tag ∈ tags)
    (hgroup : single.dimens.lifoGroup = some g)
    (hnotpickup : isPickup single = false)
    (hdel : isDelivery single = true)
    (hmismatch : (st tag).head? ≠ some g) :
    lifo_evaluate code (.activity solution_ctx route_ctx activity_ctx) =
      some { code := code, stopped := false } := by
  have hact : process_activity tags st d = none := by
    simp [process_activity, hjob, htag, hgroup, hnotpickup, hdel, henf, hmismatch]
  have hviol : check_lifo_violation tags route_ctx.tour activity_ctx.index
      activity_ctx.target = true := by
    unfold check_lifo_violation
    rw [hsim, processSeq_append, hpre]
    show (processSeq tags st (d :: post)).isNone = true
    unfold processSeq
    rw [hact]
    rfl
  obtain ⟨t, ts, rfl⟩ : ∃ t ts, tags = t :: ts := by
    cases tags with
    | nil => exact absurd henf (List.not_mem_nil tag)
    | cons t ts => exact ⟨t, ts, rfl⟩
  simp [lifo_evaluate, htags, hviol]

/-- C4 witness: inserting the delivery of group 1 while group 2 is on top of
the `w` stack yields the violation with `stopped = false`. -/
theorem lifo_out_of_order_delivery_violates_witness :
    lifo_evaluate 9 c4Move = some { code := 9, stopped := false } :=
  lifo_out_of_order_delivery_violates 9 emptySolution
    { vehicleLifoTags := some ["w"], tour := c4Tour }
    { index := 2, prev := mkActivity 20 (some (lifoPickupSingle "w" 2)), target := c4Target }
    ["w"] c4Tour [] c4Target (lifoDeliverySingle "w" 1) "w" 1 c4Stacks
    rfl rfl rfl rfl rfl (by simp) rfl rfl rfl (by decide)

/-- C3 counterexample: the claim as stated is false.  The tour contains an
enforced pickup of tag `w` group 9 immediately followed by its delivery, every
other activity carries the different tag `s`, yet `evaluate` reports a
violation for the simulated insertion (because the `s`-tagged interleaving is
itself out of LIFO order). -/
theorem lifo_adjacent_pair_claim_counterexample :
    lifo_evaluate 16 counterMove = some { code := 16, stopped := false } ∧
    simulatedSeq counterTour 4 counterTarget =
      [mkActivity 10 (some (lifoPickupSingle "s" 1)),
       mkActivity 20 (some (lifoPickupSingle "s" 2)),
       mkActivity 30 (some (lifoPickupSingle "w" 9)),
       mkActivity 40 (some (lifoDeliverySingle "w" 9)),
       counterTarget] ∧
    isPickup (lifoPickupSingle "w" 9) = true ∧
    isDelivery (lifoDeliverySingle "w" 9) = true ∧
    "w" ∈ ["w", "s"] ∧
    (lifoPickupSingle "s" 1).dimens.lifoTag ≠ some "w" ∧
    (lifoPickupSingle "s" 2).dimens.lifoTag ≠ some "w" ∧
    (lifoDeliverySingle "s" 1).dimens.lifoTag ≠ some "w" := by
  refine ⟨?_, rfl, rfl, rfl, by simp, by decide, by decide, by decide⟩
  decide

/-- C3 amended: a simulated sequence containing an enforced pickup of group
`g` immediately followed by its matching delivery never makes `evaluate`
report a violation, provided the remaining activities (the sequence with the
adjacent pair removed) process without violation — in particular for any
interleaving of untagged activities or activities of tags the vehicle does
not enforce. -/
theorem lifo_adjacent_pair_never_violates
    (code : ViolationCode) (solution_ctx : SolutionCtx) (route_ctx : RouteCtx)
    (activity_ctx : ActivityCtx) (tags : List String) (pre post : List Activity)
    (pickupAct deliveryAct : Activity) (pickupS deliveryS : Single) (tag : String) (g : ℕ)
    (htags : route_ctx.vehicleLifoTags = some tags)
    (hsim : simulatedSeq route_ctx.tour activity_ctx.index activity_ctx.target =
      pre ++ pickupAct :: deliveryAct :: post)
    (hpj : pickupAct.job = some pickupS)
    (hpt : pickupS.dimens.lifoTag = some tag)
    (hpg : pickupS.dimens.lifoGroup = some g)
    (hppick : isPickup pickupS = true)
    (hdj : deliveryAct.job = some deliveryS)
    (hdt : deliveryS.dimens.lifoTag = some tag)
    (hdg : deliveryS.dimens.lifoGroup = some g)
    (hdnp : isPickup deliveryS = false)
    (hddel : isDelivery deliveryS = true)
    (henf : tag ∈ tags)
    (hrest : (processSeq tags (fun _ => []) (pre ++ post)).isSome = true) :
    lifo_evaluate code (.activity solution_ctx route_ctx activity_ctx) = none := by
  rw [processSeq_append] at hrest
  cases h1 : processSeq tags (fun _ => []) pre with
  | none => rw [h1] at hrest; simp at hrest
  | some st1 =>
    rw [h1] at hrest
    simp only [Option.some_bind] at hrest
    have hp : process_activity tags st1 pickupAct =
        some (updateStacks st1 tag (g :: st1 tag)) := by
      simp [process_activity, hpj, hpt, hpg, hppick, henf]
    have hstack : (updateStacks st1 tag (g :: st1 tag)) tag = g :: st1 tag := by
      simp [updateStacks]
    have hd : process_activity tags (updateStacks st1 tag (g :: st1 tag)) deliveryAct =
        some st1 := by
      simp only [process_activity, hdj, hdt, hdg, hdnp, hddel, henf, hstack]
      simp [updateStacks_updateStacks, updateStacks_self]
      intro hn
      exact absurd henf hn
    have hcheck : check_lifo_violation tags route_ctx.tour activity_ctx.index
        activity_ctx.target = false := by
      unfold check_lifo_violation
      rw [hsim, processSeq_append, h1]
      show (processSeq tags st1 (pickupAct :: deliveryAct :: post)).isNone = false
      unfold processSeq
      rw [hp]
      show (processSeq tags (updateStacks st1 tag (g :: st1 tag))
        (deliveryAct :: post)).isNone = false
      unfold processSeq
      rw [hd]
      show (processSeq tags st1 post).isNone = false
      rcases h2 : processSeq tags st1 post with _ | st2
      · rw [h2] at hrest; simp at hrest
      · rfl
    obtain ⟨t, ts, rfl⟩ : ∃ t ts, tags = t :: ts := by
      cases tags with
      | nil => exact absurd henf (List.not_mem_nil tag)
      | cons t ts => exact ⟨t, ts, rfl⟩
    simp [lifo_evaluate, htags, hcheck]

/-- C3 amended witness: the adjacent enforced pair of group 1 with an
untagged activity inserted after it is accepted. -/
theorem lifo_adjacent_pair_never_violates_witness :
    lifo_evaluate 3 pairMove = none :=
  lifo_adjacent_pair_never_violates 3 emptySolution
    { vehicleLifoTags := some ["w"], tour := pairTour }
    { index := 2, prev := mkActivity 20 (some (lifoDeliverySingle "w" 1)), target := pairTarget }
    ["w"] [] [pairTarget]
    (mkActivity 10 (some (lifoPickupSingle "w" 1)))
    (mkActivity 20 (some (lifoDeliverySingle "w" 1)))
    (lifoPickupSingle "w" 1) (lifoDeliverySingle "w" 1) "w" 1
    rfl rfl rfl rfl rfl rfl rfl rfl rfl rfl rfl (by simp) rfl

/-- The pickup-insertion scan raises the violation exactly when some matching
delivery in the tour suffix has a recomputed arrival more than the bound after
the estimated pickup departure. -/
theorem check_pickup_insertion_eq_some_iff (transport : Transport) (code : ViolationCode)
    (bound : Duration) (tour : List Activity) (index : ℕ) (prev target : Activity)
    (single : Single) :
    check_pickup_insertion transport code bound tour index prev target single =
      some { code := code, stopped := false } ↔
    ∃ j a, (tour.drop index).get? j = some a ∧ matchingDelivery single a = true ∧
      bound < walkArrival transport (estimate_departure_time transport prev target)
          target.place.location ((tour.drop index).take (j + 1)) -
        estimate_departure_time transport prev target := by
  unfold check_pickup_insertion
  dsimp only
  split_ifs with hany
  · rw [List.any_eq_true] at hany
    obtain ⟨j, hj, hpj⟩ := hany
    constructor
    · intro _
      rcases hget : (tour.drop index).get? j with _ | a
      · rw [hget] at hpj
        exact absurd hpj (by simp)
      · rw [hget] at hpj
        rw [Bool.and_eq_true, decide_eq_true_eq] at hpj
        exact ⟨j, a, hget, hpj.1, hpj.2⟩
    · intro _
      rfl
  · constructor
    · intro h
      exact absurd h (by simp)
    · rintro ⟨j, a, hget, hmatch, hlt⟩
      exfalso
      apply hany
      rw [List.any_eq_true]
      have hlen : j < (tour.drop index).length := by
        by_contra hle
        rw [List.get?_eq_none.mpr (le_of_not_lt hle)] at hget
        exact Option.noConfusion hget
      refine ⟨j, List.mem_range.mpr hlen, ?_⟩
      rw [hget, Bool.and_eq_true, decide_eq_true_eq]
      exact ⟨hmatch, hlt⟩

/-- C2: `evaluate` of the max-ride-duration constraint raises a violation iff
the computed ride duration (matching delivery arrival minus paired pickup
departure) strictly exceeds the bound — equality with the bound is accepted —
for delivery-insertion moves whose paired pickup is found in the tour prefix
and for pickup-insertion moves over the matching deliveries of the tour
suffix. -/
theorem ride_duration_strict_boundary (transport : Transport) (code : ViolationCode)
    (solution_ctx : SolutionCtx) (route_ctx : RouteCtx) (activity_ctx : ActivityCtx)
    (single : Single) (bound : Duration)
    (hjob : activity_ctx.target.job = some single)
    (hbound : get_max_ride_duration_for_single single = some bound) :
    (∀ pickup_activity,
      isPickup single = false → isDelivery single = true →
      (route_ctx.tour.take (activity_ctx.index + 1)).find? (matchingPickup single) =
        some pickup_activity →
      (ride_evaluate transport code (.activity solution_ctx route_ctx activity_ctx) =
          some { code := code, stopped := false } ↔
        bound < estimate_arrival_time transport activity_ctx.prev activity_ctx.target -
          pickup_activity.schedule.departure)) ∧
    (isPickup single = true →
      (ride_evaluate transport code (.activity solution_ctx route_ctx activity_ctx) =
          some { code := code, stopped := false } ↔
        ∃ j a, (route_ctx.tour.drop activity_ctx.index).get? j = some a ∧
          matchingDelivery single a = true ∧
          bound < walkArrival transport
              (estimate_departure_time transport activity_ctx.prev activity_ctx.target)
              activity_ctx.target.place.location
              ((route_ctx.tour.drop activity_ctx.index).take (j + 1)) -
            estimate_departure_time transport activity_ctx.prev activity_ctx.target)) := by
  constructor
  · intro pickup_activity hnp hdel hfind
    show check_ride_duration transport code route_ctx activity_ctx = _ ↔ _
    simp only [check_ride_duration, hjob, hbound, hnp, hdel, Bool.false_eq_true, if_false,
      if_true]
    unfold check_delivery_insertion
    rw [hfind]
    dsimp only
    split_ifs with h
    · simp [h]
    · simp [h]
  · intro hp
    show check_ride_duration transport code route_ctx activity_ctx = _ ↔ _
    simp only [check_ride_duration, hjob, hbound, hp, if_true]
    exact check_pickup_insertion_eq_some_iff transport code bound route_ctx.tour
      activity_ctx.index activity_ctx.prev activity_ctx.target single

/-- C2 witness: with bound 440, a travel scale yielding ride duration 450
raises the violation for both the delivery-insertion and pickup-insertion
moves, while the scale yielding exactly 440 does not. -/
theorem ride_duration_strict_boundary_witness :
    ride_evaluate (scaledTransport 45) 1200 rideDeliveryMove =
      some { code := 1200, stopped := false } ∧
    ride_evaluate (scaledTransport 44) 1200 rideDeliveryMove ≠
      some { code := 1200, stopped := false } ∧
    ride_evaluate (scaledTransport 45) 1200 ridePickupMove =
      some { code := 1200, stopped := false } := by
  refine ⟨?_, ?_, ?_⟩
  · exact ((ride_duration_strict_boundary (scaledTransport 45) 1200 emptySolution
        { tour := [ridePickupActivity] }
        { index := 0, prev := ridePickupActivity, target := rideDeliveryActivity }
        rideDeliverySingle 440 rfl rfl).1 ridePickupActivity rfl rfl rfl).mpr
      (by norm_num [estimate_arrival_time, scaledTransport, ridePickupActivity,
        rideDeliveryActivity])
  · intro hc
    have h := ((ride_duration_strict_boundary (scaledTransport 44) 1200 emptySolution
        { tour := [ridePickupActivity] }
        { index := 0, prev := ridePickupActivity, target := rideDeliveryActivity }
        rideDeliverySingle 440 rfl rfl).1 ridePickupActivity rfl rfl rfl).mp hc
    norm_num [estimate_arrival_time, scaledTransport, ridePickupActivity,
      rideDeliveryActivity] at h
  · exact ((ride_duration_strict_boundary (scaledTransport 45) 1200 emptySolution
        { tour := [rideDeliveryActivity] }
        { index := 0, prev := depotActivity, target := ridePickupActivity }
        ridePickupSingle 440 rfl rfl).2 rfl).mpr
      ⟨0, rideDeliveryActivity, rfl, rfl,
        by norm_num [walkArrival, estimate_departure_time, estimate_arrival_time,
          scaledTransport, ridePickupActivity, rideDeliveryActivity, depotActivity]⟩
